import Mathlib

/-!
Verification of the comment-cleaning / sentiment-classification pipeline of
YoutubeCommentSentiment.py.

Python strings are modelled as lists of characters; a Python value that may
be a string or None is modelled as an Option.  The three external collaborators
are parameters of the embedding, as the spec treats them as black boxes:

  * demoji.findall     : a function returning the list of emoji substrings it
                         detected in a text (the keys of the returned dict, in
                         iteration order);
  * langdetect.detect  : a function from the current DetectorFactory seed and a
                         text to a language code, or failure (an exception),
                         modelled as Option String with none = failure;
  * TextBlob polarity  : a function from a text to a rational polarity score.
-/

/-- A Python string, as a list of characters. -/
abbrev Text := List Char

/-- Whether the pattern p occurs at the very start of s
(the matching step of Python str.replace). -/
def leadsWith : List Char → List Char → Bool
  | [], _ => true
  | _ :: _, [] => false
  | c :: p, d :: s => c == d && leadsWith p s

/-- Whether the pattern p occurs somewhere in s (Python "p in s"). -/
def occursIn (p : List Char) : List Char → Bool
  | [] => leadsWith p []
  | c :: s => leadsWith p (c :: s) || occursIn p s

/-- One scan of Python s.replace(p, ""): moving left to right, each
(non-overlapping) occurrence of p is deleted.  The fuel argument only bounds
the recursion; replaceAll passes the length of s, which always suffices
because every step consumes at least one character. -/
def replaceAllGo (p : List Char) : Nat → List Char → List Char
  | _, [] => []
  | 0, s => s
  | fuel + 1, c :: s =>
    if p ≠ [] ∧ leadsWith p (c :: s) = true then
      replaceAllGo p fuel ((c :: s).drop p.length)
    else
      c :: replaceAllGo p fuel s

/-- Python s.replace(p, ""): delete every left-to-right non-overlapping
occurrence of p in s.  (For p = "" Python returns s unchanged when the
replacement is also empty, which the else branch reproduces.) -/
def replaceAll (p s : List Char) : List Char :=
  replaceAllGo p s.length s

/-- remove_emoji (YoutubeCommentSentiment.py lines 61-79): demoji.findall
returns the detected emoji substrings; the loop runs text.replace(emoji, '')
for each detected key in turn, starting from the original text. -/
def remove_emoji (findall : Text → List Text) (text : Text) : Text :=
  (findall text).foldl (fun demoji_text e => replaceAll e demoji_text) text

/-- remove_non_english (lines 82-102).  The DetectorFactory seed is explicit
state: the function first sets it to 0, then calls detect with that seed.
Result value (second component) is the Python return value:
  * detect succeeds with 'en'  → the text unchanged;
  * detect succeeds otherwise  → Python None (the if has no else and the
                                 function body ends, so it falls through);
  * detect raises              → '' (the bare except branch).
The first component is the DetectorFactory seed after the call. -/
def remove_non_english (detect : Nat → Text → Option String) (seed0 : Nat)
    (text : Text) : Nat × Option Text :=
  let seed := 0
  (seed,
    match detect seed text with
    | some language => if language = "en" then some text else none
    | none => some [])

/-- The value stored back into slot i by one iteration of the clean_comments
loop (lines 119-123): comments[index] = remove_emoji(comment), then
comments[index] = remove_non_english(comments[index]).  The detector seed is
overwritten to 0 inside remove_non_english, so the stored value does not
depend on the incoming seed; 0 is passed here. -/
def clean_one (findall : Text → List Text) (detect : Nat → Text → Option String)
    (c : Text) : Option Text :=
  (remove_non_english detect 0 (remove_emoji findall c)).2

/-- A Python list object: a reference identity (the id of the object) together
with its current slots.  A slot holds a Python value that is a string or None
(Option Text, with none = Python None). -/
structure PyListObj where
  ref : Nat
  data : List (Option Text)
deriving DecidableEq

/-- The loop body of clean_comments over the slots (lines 119-123), threading
the DetectorFactory seed.  Each iteration reads slot i and overwrites slot i
with clean_one of the old value.  A None slot would make demoji.findall raise
a TypeError, which propagates; this never happens on a freshly fetched list,
whose slots are all strings. -/
def cleanSlots (findall : Text → List Text) (detect : Nat → Text → Option String) :
    Nat → List (Option Text) → Except String (Nat × List (Option Text))
  | seed, [] => .ok (seed, [])
  | seed, slot :: rest =>
    match slot with
    | none => .error "TypeError: expected string or bytes-like object"
    | some c =>
      let r := remove_non_english detect seed (remove_emoji findall c)
      match cleanSlots findall detect r.1 rest with
      | .ok (s, l) => .ok (s, r.2 :: l)
      | .error e => .error e

/-- clean_comments (lines 105-124): mutates the argument list object in place
slot by slot and returns the same object (return comments).  The result
carries the final DetectorFactory seed and the (same-reference) object. -/
def clean_comments (findall : Text → List Text) (detect : Nat → Text → Option String)
    (seed0 : Nat) (o : PyListObj) : Except String (Nat × PyListObj) :=
  (cleanSlots findall detect seed0 o.data).map fun sl => (sl.1, ⟨o.ref, sl.2⟩)

/-- The local variable result computed inside get_sentiment (lines 144-149):
the sign of the TextBlob polarity score picks the label. -/
def sentiment_result (polarity : Text → ℚ) (text : Text) : String :=
  if polarity text > 0 then "Positive"
  else if polarity text < 0 then "Negative"
  else "Neutral"

/-- get_sentiment (lines 128-149), faithful to the source: the function
computes the local variable result but contains no return statement, so the
call evaluates to Python None for every input. -/
def get_sentiment (polarity : Text → ℚ) (text : Text) : Option String :=
  let result := sentiment_result polarity text
  none

/-- Whether a slot value is missing (NaN) after
df.Comment.replace('', np.nan): an empty string became NaN, and a Python
None in an object column already counts as missing for isna and dropna. -/
def isNaVal : Option Text → Bool
  | some s => s = ([] : Text)
  | none => true

/-- The effect of df.Comment.replace('', np.nan) on one cell (line 170): an
empty string becomes missing (none); a Python None cell is already missing;
any other string is kept. -/
def replaceEmptyNa : Option Text → Option Text
  | some s => if s = ([] : Text) then none else some s
  | none => none

/-- build_sentiment_df (lines 152-177).  pd.DataFrame(comments) on the empty
list yields a frame with zero columns, so the assignment
df.columns = ['Comment'] raises a ValueError (length mismatch) — the error
case here.  Otherwise: '' entries are replaced by NaN, the missing entries
are counted (count_nan) and dropped, and the Sentiment column is
get_sentiment applied to each surviving comment.  The result is the list of
(Comment, Sentiment) rows in frame order plus count_nan. -/
def build_sentiment_df (polarity : Text → ℚ) (comments : List (Option Text)) :
    Except String (List (Text × Option String) × Nat) :=
  if comments.isEmpty then
    .error "ValueError: Length mismatch"
  else
    let col := comments.map replaceEmptyNa
    let count_nan := (col.filter Option.isNone).length
    let kept := col.filterMap id
    .ok (kept.map (fun s => (s, get_sentiment polarity s)), count_nan)

/-- pandas Series.value_counts on the Sentiment column (line 176): one entry
per distinct non-null value, with its multiplicity.  pandas orders the
entries by descending count; only the key set and the counts are used here,
so the entries are listed in first-occurrence order. -/
def value_counts (col : List (Option String)) : List (String × Nat) :=
  let vals := col.filterMap id
  vals.dedup.map fun v => (v, vals.count v)

/-- The printed summary (line 176): value_counts of the Sentiment column of
the rows of the built frame. -/
def summarize (rows : List (Text × Option String)) : List (String × Nat) :=
  value_counts (rows.map Prod.snd)

/-- The pipeline of the __main__ block after argument parsing (lines
193-203): video_comments starts as []; a successful fetch replaces it, an
HttpError is caught and printed and leaves it empty; then clean_comments
runs in place on the fetched list object and build_sentiment_df is called on
the cleaned comments.  fetch is Except Unit (List Text) with
error () = the fetch raised HttpError.  seed0 is the DetectorFactory seed at
process start. -/
def main_pipeline (fetch : Except Unit (List Text)) (findall : Text → List Text)
    (detect : Nat → Text → Option String) (polarity : Text → ℚ) (seed0 : Nat) :
    Except String (List (Text × Option String) × Nat) :=
  let video_comments : List Text :=
    match fetch with
    | .ok cs => cs
    | .error _ => []
  match clean_comments findall detect seed0 ⟨0, video_comments.map some⟩ with
  | .ok (_, o) => build_sentiment_df polarity o.data
  | .error e => .error e

/-- A detector that finds, in order, every one of the two fixed keys "ab" and
"x" that occurs in the text — the shape of demoji.findall, which reports each
known emoji sequence occurring in the text.  Used to exhibit recombination:
deleting "x" from "abaxb" glues "a" and "b" into a fresh occurrence of the
already-processed key "ab". -/
def findallAB : Text → List Text :=
  fun t => [['a', 'b'], ['x']].filter fun p => occursIn p t

/-- A detector reporting the single one-character key "x" whenever it occurs. -/
def findallX : Text → List Text :=
  fun t => [['x']].filter fun p => occursIn p t

/-- A detector that never reports an emoji. -/
def findallNone : Text → List Text := fun _ => []

/-- A language detector that always reports French. -/
def detectFr : Nat → Text → Option String := fun _ _ => some "fr"

/-- A language detector that always reports English. -/
def detectEn : Nat → Text → Option String := fun _ _ => some "en"

/-- A language detector that always fails (raises). -/
def detectFail : Nat → Text → Option String := fun _ _ => none

/-- A polarity scorer that always returns one half. -/
def polarityHalf : Text → ℚ := fun _ => 1 / 2

/-- A polarity scorer that always returns zero. -/
def polarityZero : Text → ℚ := fun _ => 0

theorem replaceAllGo_sublist (p : List Char) :
    ∀ (fuel : Nat) (s : List Char), (replaceAllGo p fuel s).Sublist s := by
  intro fuel
  induction fuel with
  | zero =>
    intro s
    cases s with
    | nil => exact List.Sublist.refl _
    | cons c s => exact List.Sublist.refl _
  | succ fuel ih =>
    intro s
    cases s with
    | nil => exact List.Sublist.refl _
    | cons c s =>
      show (if p ≠ [] ∧ leadsWith p (c :: s) = true then
          replaceAllGo p fuel ((c :: s).drop p.length)
        else c :: replaceAllGo p fuel s).Sublist (c :: s)
      split
      · exact (ih _).trans (List.drop_sublist _ _)
      · exact (ih s).cons₂ c

theorem replaceAll_sublist (p s : List Char) : (replaceAll p s).Sublist s :=
  replaceAllGo_sublist p s.length s

theorem foldl_replaceAll_sublist (keys : List Text) :
    ∀ t : Text, (keys.foldl (fun acc k => replaceAll k acc) t).Sublist t := by
  induction keys with
  | nil => intro t; exact List.Sublist.refl t
  | cons k rest ih =>
    intro t
    exact (ih (replaceAll k t)).trans (replaceAll_sublist k t)

theorem replaceAllGo_single (ch : Char) :
    ∀ (fuel : Nat) (s : List Char), s.length ≤ fuel →
      replaceAllGo [ch] fuel s = s.filter (fun d => !(d == ch)) := by
  intro fuel
  induction fuel with
  | zero =>
    intro s hs
    have : s = [] := List.eq_nil_of_length_eq_zero (Nat.le_zero.mp hs)
    subst this
    rfl
  | succ fuel ih =>
    intro s hs
    cases s with
    | nil => rfl
    | cons c s =>
      show (if [ch] ≠ [] ∧ leadsWith [ch] (c :: s) = true then
          replaceAllGo [ch] fuel ((c :: s).drop 1)
        else c :: replaceAllGo [ch] fuel s) = (c :: s).filter (fun d => !(d == ch))
      have hlen : s.length ≤ fuel := Nat.le_of_succ_le_succ hs
      by_cases hc : ch = c
      · subst hc
        rw [if_pos ⟨List.cons_ne_nil ch [], by simp [leadsWith]⟩]
        simp [List.filter_cons, ih s hlen]
      · rw [if_neg]
        · have hne : (c == ch) = false := by
            simp
            exact fun h => hc h.symm
          simp [List.filter_cons, hne, ih s hlen]
        · intro hcontra
          have h2 := hcontra.2
          simp [leadsWith] at h2
          exact hc h2

theorem replaceAll_single (ch : Char) (s : List Char) :
    replaceAll [ch] s = s.filter (fun d => !(d == ch)) :=
  replaceAllGo_single ch s.length s (Nat.le_refl _)

theorem not_mem_replaceAll_single (ch : Char) (s : List Char) :
    ch ∉ replaceAll [ch] s := by
  rw [replaceAll_single]
  intro hmem
  have := (List.mem_filter.mp hmem).2
  simp at this

theorem occursIn_single (ch : Char) :
    ∀ s : List Char, occursIn [ch] s = true ↔ ch ∈ s := by
  intro s
  induction s with
  | nil => simp [occursIn, leadsWith]
  | cons c s ih =>
    simp [occursIn, leadsWith, ih, List.mem_cons]

theorem foldl_removes_single_key (keys : List Text) :
    ∀ (t : Text) (ch : Char), [ch] ∈ keys →
      ch ∉ keys.foldl (fun acc k => replaceAll k acc) t := by
  induction keys with
  | nil => intro t ch h; cases h
  | cons k rest ih =>
    intro t ch hmem
    rcases List.mem_cons.mp hmem with hk | hrest
    · subst hk
      show ch ∉ rest.foldl (fun acc k => replaceAll k acc) (replaceAll [ch] t)
      intro habs
      exact not_mem_replaceAll_single ch t
        ((foldl_replaceAll_sublist rest (replaceAll [ch] t)).subset habs)
    · exact ih (replaceAll k t) ch hrest

/-- C1: the claim says get_sentiment returns exactly one of the three labels
according to the sign of the polarity score.  The source computes that label
into the local variable result but has no return statement, so the function
returns Python None for every input and every scorer — it never returns any
of the three labels. -/
theorem get_sentiment_returns_python_none (polarity : Text → ℚ) (t : Text) :
    get_sentiment polarity t = none := rfl

/-- C2: the claim says that after a caught HttpError the run proceeds with an
empty comment collection and reports 0 comments, 0 excluded.  In the source,
proceeding with the empty list makes pd.DataFrame([]) a zero-column frame, so
the assignment df.columns = ['Comment'] in build_sentiment_df raises a
ValueError: the run crashes instead of producing the all-zero report, for
every detector, emoji finder, scorer and initial seed. -/
theorem main_pipeline_crashes_after_http_error (findall : Text → List Text)
    (detect : Nat → Text → Option String) (polarity : Text → ℚ) (seed0 : Nat) :
    main_pipeline (.error ()) findall detect polarity seed0 =
      .error "ValueError: Length mismatch" := rfl

/-- C4: the claim (and the function's own docstring) says that a text whose
detected language is not the target returns the empty string.  The source's
if has no else branch, so for any text the detector labels French (or any
non-en code) the function falls off the end of the try block and returns
Python None, not the empty string. -/
theorem remove_non_english_none_for_detected_french (seed0 : Nat) (t : Text) :
    remove_non_english detectFr seed0 t = (0, none) ∧
      (none : Option Text) ≠ some ([] : Text) :=
  ⟨rfl, by decide⟩

/-- C8: when language detection raises (no detectable features), the bare
except branch returns the empty string; the failure is never propagated —
remove_non_english is total and yields the EMPTY marker. -/
theorem remove_non_english_recovers_detection_failure
    (detect : Nat → Text → Option String) (seed0 : Nat) (t : Text)
    (h : detect 0 t = none) :
    (remove_non_english detect seed0 t).2 = some ([] : Text) := by
  simp [remove_non_english, h]

/-- Witness for C8 at a concrete failing detector, prior seed 7 and the empty
text. -/
theorem remove_non_english_recovers_detection_failure_witness :
    detectFail 0 ([] : Text) = none ∧
      (remove_non_english detectFail 7 ([] : Text)).2 = some ([] : Text) :=
  ⟨rfl, remove_non_english_recovers_detection_failure detectFail 7 [] rfl⟩

/-- C9: remove_non_english overwrites the DetectorFactory seed with 0 before
every detection call, so its returned value does not depend on the incoming
factory state: two invocations on the same text, from any two prior seeds
(same run or separate runs), yield the same result, and the factory seed
after the call is the fixed seed 0. -/
theorem remove_non_english_deterministic (detect : Nat → Text → Option String)
    (s₁ s₂ : Nat) (t : Text) :
    (remove_non_english detect s₁ t).2 = (remove_non_english detect s₂ t).2 ∧
      (remove_non_english detect s₁ t).1 = 0 :=
  ⟨rfl, rfl⟩

/-- C7 counterexample: with a detector that reports every occurrence of the
known keys "ab" and "x" (the shape of demoji.findall over its emoji table),
the text "abaxb" has both keys detected; removing "ab" first and then "x"
glues the fragments "a" and "b" into a fresh occurrence of "ab", so the
result "ab" still contains a substring the detector recognizes, and an
occurrence of the detected key "ab" was not removed. -/
theorem remove_emoji_can_leave_detected_emoji :
    findallAB ['a', 'b', 'a', 'x', 'b'] = [['a', 'b'], ['x']] ∧
    remove_emoji findallAB ['a', 'b', 'a', 'x', 'b'] = ['a', 'b'] ∧
    occursIn ['a', 'b'] (remove_emoji findallAB ['a', 'b', 'a', 'x', 'b']) = true ∧
    findallAB (remove_emoji findallAB ['a', 'b', 'a', 'x', 'b']) ≠ [] := by
  decide

/-- C7 amended: each detected key is removed with str.replace, which deletes
every left-to-right occurrence, not just the first; when every detected key
is a single character, deletions cannot recombine fragments into a detected
key, and the result contains no occurrence of any detected key.  (With
multi-character keys, deletions may splice a detected key back together, as
the counterexample shows.) -/
theorem remove_emoji_single_char_keys_all_removed (findall : Text → List Text)
    (t : Text) (hk : ∀ e ∈ findall t, e.length = 1) (e : Text)
    (he : e ∈ findall t) :
    occursIn e (remove_emoji findall t) = false := by
  match e, hk e he with
  | [ch], _ =>
    have hnot : ch ∉ remove_emoji findall t :=
      foldl_removes_single_key (findall t) t ch he
    have := occursIn_single ch (remove_emoji findall t)
    cases hocc : occursIn [ch] (remove_emoji findall t) with
    | false => rfl
    | true => exact absurd (this.mp hocc) hnot

/-- Witness for C7 amended at the single-character detector findallX and the
text "axbx". -/
theorem remove_emoji_single_char_keys_all_removed_witness :
    (∀ e ∈ findallX ['a', 'x', 'b', 'x'], e.length = 1) ∧
      occursIn ['x'] (remove_emoji findallX ['a', 'x', 'b', 'x']) = false :=
  ⟨by decide, remove_emoji_single_char_keys_all_removed findallX
    ['a', 'x', 'b', 'x'] (by decide) ['x'] (by decide)⟩

theorem cleanSlots_on_strings (findall : Text → List Text)
    (detect : Nat → Text → Option String) :
    ∀ (xs : List Text) (seed : Nat), ∃ s',
      cleanSlots findall detect seed (xs.map some) =
        .ok (s', xs.map (clean_one findall detect)) := by
  intro xs
  induction xs with
  | nil => intro seed; exact ⟨seed, rfl⟩
  | cons c rest ih =>
    intro seed
    obtain ⟨s', hrest⟩ := ih 0
    refine ⟨s', ?_⟩
    show cleanSlots findall detect seed (some c :: rest.map some) =
      .ok (s', clean_one findall detect c :: rest.map (clean_one findall detect))
    simp only [cleanSlots]
    have hseed : (remove_non_english detect seed (remove_emoji findall c)).1 = 0 := rfl
    have hval : (remove_non_english detect seed (remove_emoji findall c)).2 =
        clean_one findall detect c := rfl
    rw [hseed, hrest, hval]

/-- C6: clean_comments preserves the length of the slot sequence and its
positional correspondence: on a fetched list object whose slots are the raw
comment strings, the call succeeds and slot i of the output object is exactly
the sanitize-then-language-filter image (clean_one) of slot i of the input,
for every index; nothing is reordered or dropped — exclusion shows up as the
marker value at the same index. -/
theorem clean_comments_preserves_length_and_positions
    (findall : Text → List Text) (detect : Nat → Text → Option String)
    (seed0 r : Nat) (xs : List Text) :
    ∃ s' out, clean_comments findall detect seed0 ⟨r, xs.map some⟩ = .ok (s', out) ∧
      out.data.length = xs.length ∧
      ∀ i : Nat, out.data[i]? = (xs[i]?).map (clean_one findall detect) := by
  obtain ⟨s', h⟩ := cleanSlots_on_strings findall detect xs seed0
  refine ⟨s', ⟨r, xs.map (clean_one findall detect)⟩, ?_, ?_, ?_⟩
  · show (cleanSlots findall detect seed0 ((⟨r, xs.map some⟩ : PyListObj)).data).map
        (fun sl => (sl.1, (⟨r, sl.2⟩ : PyListObj))) = _
    rw [show (⟨r, xs.map some⟩ : PyListObj).data = xs.map some from rfl, h]
    rfl
  · exact List.length_map xs _
  · intro i
    exact List.getElem?_map (clean_one findall detect) xs i

/-- C10: clean_comments mutates its argument in place and returns the very
same list object: the returned object carries the same reference r as the
argument, and the slots reachable through that reference after the call are
the cleaned forms of the original raw comments, so the raw sequence is no
longer stored in the object. -/
theorem clean_comments_returns_same_object_overwritten
    (findall : Text → List Text) (detect : Nat → Text → Option String)
    (seed0 r : Nat) (xs : List Text) :
    ∃ s', clean_comments findall detect seed0 ⟨r, xs.map some⟩ =
      .ok (s', ⟨r, xs.map (clean_one findall detect)⟩) := by
  obtain ⟨s', h⟩ := cleanSlots_on_strings findall detect xs seed0
  refine ⟨s', ?_⟩
  show (cleanSlots findall detect seed0 ((⟨r, xs.map some⟩ : PyListObj)).data).map
      (fun sl => (sl.1, (⟨r, sl.2⟩ : PyListObj))) = _
  rw [show (⟨r, xs.map some⟩ : PyListObj).data = xs.map some from rfl, h]
  rfl

theorem filter_isNone_map_replaceEmptyNa (cs : List (Option Text)) :
    ((cs.map replaceEmptyNa).filter Option.isNone).length =
      (cs.filter isNaVal).length := by
  induction cs with
  | nil => rfl
  | cons c cs ih =>
    have hcell : Option.isNone (replaceEmptyNa c) = isNaVal c := by
      cases c with
      | none => rfl
      | some s =>
        by_cases hs : s = ([] : Text)
        · simp [replaceEmptyNa, isNaVal, hs]
        · simp [replaceEmptyNa, isNaVal, hs]
    simp only [List.map_cons, List.filter_cons, hcell]
    cases hna : isNaVal c
    · simp [ih]
    · simp [ih]

theorem filterMap_id_length_add_filter_isNone {α : Type} (l : List (Option α)) :
    (l.filterMap id).length + (l.filter Option.isNone).length = l.length := by
  induction l with
  | nil => rfl
  | cons c l ih =>
    cases c with
    | none =>
      show (l.filterMap id).length + (none :: l.filter Option.isNone).length =
        l.length + 1
      simp only [List.length_cons]
      omega
    | some a =>
      show (a :: l.filterMap id).length + (l.filter Option.isNone).length =
        l.length + 1
      simp only [List.length_cons]
      omega

theorem kept_map_some_sublist (cs : List (Option Text)) :
    (((cs.map replaceEmptyNa).filterMap id).map some).Sublist cs := by
  induction cs with
  | nil => exact List.Sublist.refl _
  | cons c cs ih =>
    cases c with
    | none => exact ih.cons _
    | some s =>
      by_cases hs : s = ([] : Text)
      · subst hs
        exact ih.cons _
      · have hcell : replaceEmptyNa (some s) = some s := by
          simp [replaceEmptyNa, hs]
        show ((((some s :: cs).map replaceEmptyNa).filterMap id).map some).Sublist
          (some s :: cs)
        rw [List.map_cons, hcell]
        exact ih.cons₂ _

theorem kept_entries_nonempty (cs : List (Option Text)) :
    ∀ s ∈ (cs.map replaceEmptyNa).filterMap id, s ≠ ([] : Text) := by
  induction cs with
  | nil => intro s hs; cases hs
  | cons c cs ih =>
    intro s hs
    cases c with
    | none => exact ih s hs
    | some t =>
      by_cases ht : t = ([] : Text)
      · subst ht
        exact ih s hs
      · have hcell : replaceEmptyNa (some t) = some t := by
          simp [replaceEmptyNa, ht]
        have hs' : s ∈ t :: (cs.map replaceEmptyNa).filterMap id := by
          have : ((some t :: cs).map replaceEmptyNa).filterMap id =
              t :: (cs.map replaceEmptyNa).filterMap id := by
            rw [List.map_cons, hcell]
            rfl
          rw [this] at hs
          exact hs
        rcases List.mem_cons.mp hs' with rfl | hmem
        · exact ht
        · exact ih s hmem

theorem summarize_map_get_sentiment (polarity : Text → ℚ) (l : List Text) :
    summarize (l.map fun s => (s, get_sentiment polarity s)) = [] := by
  have h1 : ((l.map fun s => (s, get_sentiment polarity s)).map Prod.snd) =
      l.map (fun _ => (none : Option String)) := by
    rw [List.map_map]
    rfl
  have h2 : ∀ m : List Text, (m.map fun _ => (none : Option String)).filterMap id = [] := by
    intro m
    induction m with
    | nil => rfl
    | cons a m ih => exact ih
  simp only [summarize, value_counts]
  rw [h1, h2]
  rfl

/-- C5 counterexample: the claim quantifies over every cleaned sequence, but
on the empty sequence the source reports no rows and no exclusion count at
all — pd.DataFrame([]) has zero columns and the column assignment raises a
ValueError before any counting happens. -/
theorem build_sentiment_df_errors_on_empty :
    build_sentiment_df polarityZero [] = .error "ValueError: Length mismatch" := rfl

/-- C5 amended: for every nonempty cleaned sequence, build_sentiment_df
succeeds, reports as excluded exactly the entries that are the empty string
or the None marker, keeps the surviving rows as a subsequence of the input
(original relative order), accounts for every entry (rows + excluded =
input length), and every surviving row text is non-excluded.  (On the empty
sequence it raises instead — see the counterexample.) -/
theorem build_sentiment_df_counts_and_order (polarity : Text → ℚ)
    (cs : List (Option Text)) (h : cs ≠ []) :
    ∃ rows cnt, build_sentiment_df polarity cs = .ok (rows, cnt) ∧
      cnt = (cs.filter isNaVal).length ∧
      rows.length + cnt = cs.length ∧
      (rows.map fun r => some r.1).Sublist cs ∧
      ∀ r ∈ rows, r.1 ≠ ([] : Text) := by
  cases cs with
  | nil => exact absurd rfl h
  | cons c cs' =>
    refine ⟨(((c :: cs').map replaceEmptyNa).filterMap id).map
        (fun s => (s, get_sentiment polarity s)),
      (((c :: cs').map replaceEmptyNa).filter Option.isNone).length,
      rfl, filter_isNone_map_replaceEmptyNa (c :: cs'), ?_, ?_, ?_⟩
    · rw [List.length_map]
      have h2 := filterMap_id_length_add_filter_isNone ((c :: cs').map replaceEmptyNa)
      rw [List.length_map] at h2
      exact h2
    · have hmm : ((((c :: cs').map replaceEmptyNa).filterMap id).map
          (fun s => (s, get_sentiment polarity s))).map (fun r => some r.1) =
          (((c :: cs').map replaceEmptyNa).filterMap id).map some := by
        rw [List.map_map]
        rfl
      rw [hmm]
      exact kept_map_some_sublist (c :: cs')
    · intro r hr
      rw [List.mem_map] at hr
      obtain ⟨s, hsmem, rfl⟩ := hr
      exact kept_entries_nonempty (c :: cs') s hsmem

/-- Witness for C5 amended at the concrete cleaned sequence
[some "g", some "", None]. -/
theorem build_sentiment_df_counts_and_order_witness :
    ∃ rows cnt,
      build_sentiment_df polarityZero [some ['g'], some [], none] = .ok (rows, cnt) ∧
      cnt = (([some ['g'], some [], none] : List (Option Text)).filter isNaVal).length ∧
      rows.length + cnt = ([some ['g'], some [], none] : List (Option Text)).length ∧
      (rows.map fun r => some r.1).Sublist [some ['g'], some [], none] ∧
      ∀ r ∈ rows, r.1 ≠ ([] : Text) :=
  build_sentiment_df_counts_and_order polarityZero [some ['g'], some [], none]
    (by decide)

/-- C3 counterexample: on the single comment "good" the built frame has one
surviving row, yet the printed summary (value_counts of the Sentiment
column) has no keys at all — in particular Positive is missing — because
value_counts only lists values that occur, and the Sentiment cells are all
Python None (get_sentiment has no return statement). -/
theorem summarize_lacks_zero_count_labels :
    build_sentiment_df polarityHalf [some ['g', 'o', 'o', 'd']] =
      .ok ([(['g', 'o', 'o', 'd'], none)], 0) ∧
    summarize [(['g', 'o', 'o', 'd'], none)] = [] ∧
    "Positive" ∉ (summarize [(['g', 'o', 'o', 'd'], none)]).map Prod.fst :=
  ⟨rfl, by decide, by decide⟩

/-- C3 amended: the key set of the printed summary is the set of distinct
non-null values occurring in the Sentiment column, not the fixed three-label
set: a label with zero count never appears, and since every Sentiment cell
is None (get_sentiment returns None), the summary of every successfully
built frame is empty. -/
theorem summarize_of_build_sentiment_df_empty (polarity : Text → ℚ)
    (cs : List (Option Text)) (rows : List (Text × Option String)) (cnt : Nat)
    (h : build_sentiment_df polarity cs = .ok (rows, cnt)) :
    summarize rows = [] := by
  cases cs with
  | nil => exact Except.noConfusion h
  | cons c cs' =>
    have h' : (Except.ok ((((c :: cs').map replaceEmptyNa).filterMap id).map
        (fun s => (s, get_sentiment polarity s)),
        (((c :: cs').map replaceEmptyNa).filter Option.isNone).length) :
        Except String (List (Text × Option String) × Nat)) = .ok (rows, cnt) := h
    injection h' with h''
    have hrows : rows = (((c :: cs').map replaceEmptyNa).filterMap id).map
        (fun s => (s, get_sentiment polarity s)) :=
      (congrArg Prod.fst h'').symm
    rw [hrows]
    exact summarize_map_get_sentiment polarity _

/-- Witness for C3 amended at the concrete comment "g". -/
theorem summarize_of_build_sentiment_df_empty_witness :
    build_sentiment_df polarityHalf [some ['g']] = .ok ([(['g'], none)], 0) ∧
      summarize [(['g'], none)] = [] :=
  ⟨rfl, summarize_of_build_sentiment_df_empty polarityHalf [some ['g']]
    [(['g'], none)] 0 rfl⟩
